import Mathlib

/-!
Shallow embedding of the Trading-Bot decision engine
(src/engine/{state,strategy_ema,strategy_trend,main}.py).

Prices, equities and rates are modelled as exact rationals; Python
dataclasses become structures; the loop-local variables of main become an
explicit record threaded through the per-cycle step functions; places where
the Python interpreter would raise (unbound locals, dict key misses,
dataclass keyword mismatches) are modelled with Except.
-/

/-- Position record as main.py uses it: the keyword arguments passed at the
construction site (main.py line 334) and the fields read by close_position
and the exit logic. -/
structure Position where
  symbol : String
  side : String
  entry_price : ℚ
  notional_usdt : ℚ
  opened_at : String
  stop_price : ℚ
  take_profit_price : ℚ
  entry_fee : ℚ
  entry_slippage : ℚ
deriving Repr, DecidableEq

/-- Field names of the Position dataclass actually declared in
src/engine/state.py (lines 4-12); none of them has a default value. -/
def statePositionFields : List String :=
  ["symbol", "side", "entry_price", "size", "opened_at", "stop_price",
   "take_profit_price"]

/-- Keyword arguments that main.py (line 334) passes to the Position
constructor when opening a position. -/
def mainPositionOpenKwargs : List String :=
  ["symbol", "side", "entry_price", "notional_usdt", "opened_at",
   "stop_price", "take_profit_price", "entry_fee", "entry_slippage"]

/-- A Python dataclass call succeeds exactly when every keyword names a
declared field and every field without a default receives a value (state.py
Position has no defaults). -/
def dataclassCallOk (fields kwargs : List String) : Bool :=
  kwargs.all (fun k => fields.contains k) &&
    fields.all (fun f => kwargs.contains f)

/-- EngineState dataclass from src/engine/state.py (lines 14-21). -/
structure EngineState where
  position : Option Position
  trades_today : Nat
  day_utc : String
  equity : ℚ
  daily_pnl : ℚ
  day_start_equity : ℚ
deriving Repr, DecidableEq

/-- new_state from src/engine/state.py (lines 26-34); the UTC day is a
parameter here since utc_day reads the clock. -/
def new_state (initial_equity : ℚ) (today : String) : EngineState :=
  { position := none
    trades_today := 0
    day_utc := today
    equity := initial_equity
    daily_pnl := 0
    day_start_equity := initial_equity }

/-- Per-close accounting values computed by close_position (main.py lines
41-57) and reported in its position_closed event. -/
structure CloseInfo where
  reason : String
  exit_fill : ℚ
  exit_slippage : ℚ
  qty_btc : ℚ
  pnl_gross : ℚ
  exit_fee : ℚ
  pnl_net : ℚ
deriving Repr, DecidableEq

/-- close_position from src/engine/main.py lines 35-93: exit fill with
adverse slippage, exit fee on notional, net pnl = gross pnl minus exit fee
(entry fee was already deducted at open), equity and daily_pnl updated,
position slot cleared. -/
def close_position (state : EngineState) (pos : Position)
    (exit_price_signal : ℚ) (reason : String) (fee_rate slip_rate : ℚ) :
    EngineState × CloseInfo :=
  let info : CloseInfo :=
    if pos.side == "long" then
      let exit_fill := exit_price_signal * (1 - slip_rate)
      let exit_slippage := exit_price_signal - exit_fill
      let qty_btc := pos.notional_usdt / pos.entry_price
      let pnl_gross := (exit_fill - pos.entry_price) * qty_btc
      let exit_fee := pos.notional_usdt * fee_rate
      { reason := reason, exit_fill := exit_fill,
        exit_slippage := exit_slippage, qty_btc := qty_btc,
        pnl_gross := pnl_gross, exit_fee := exit_fee,
        pnl_net := pnl_gross - exit_fee }
    else
      let exit_fill := exit_price_signal * (1 + slip_rate)
      let exit_slippage := exit_fill - exit_price_signal
      let qty_btc := pos.notional_usdt / pos.entry_price
      let pnl_gross := (pos.entry_price - exit_fill) * qty_btc
      let exit_fee := pos.notional_usdt * fee_rate
      { reason := reason, exit_fill := exit_fill,
        exit_slippage := exit_slippage, qty_btc := qty_btc,
        pnl_gross := pnl_gross, exit_fee := exit_fee,
        pnl_net := pnl_gross - exit_fee }
  let equity2 := state.equity + info.pnl_net
  ({ state with
      equity := equity2
      daily_pnl := equity2 - state.day_start_equity
      position := none },
   info)

/-- EmaState dataclass from src/engine/strategy_ema.py (lines 3-7). -/
structure EmaState where
  ema_fast : Option ℚ
  ema_slow : Option ℚ
  last_signal : Option String
deriving Repr, DecidableEq

/-- ema_update from src/engine/strategy_ema.py (lines 9-13). -/
def ema_update (prev : Option ℚ) (price : ℚ) (period : Nat) : ℚ :=
  let alpha : ℚ := 2 / ((period : ℚ) + 1)
  match prev with
  | none => price
  | some p => p + alpha * (price - p)

/-- on_price from src/engine/strategy_ema.py (lines 15-33): update both
EMAs, then signal on a change of ordering guarded by last_signal. -/
def on_price (state : EmaState) (price : ℚ) (fast slow : Nat) :
    EmaState × Option String :=
  let ef := ema_update state.ema_fast price fast
  let es := ema_update state.ema_slow price slow
  let state1 := { state with ema_fast := some ef, ema_slow := some es }
  if state1.ema_fast.isNone || state1.ema_slow.isNone then
    (state1, none)
  else if ef > es ∧ state1.last_signal ≠ some "long" then
    ({ state1 with last_signal := some "long" }, some "long")
  else if ef < es ∧ state1.last_signal ≠ some "short" then
    ({ state1 with last_signal := some "short" }, some "short")
  else
    (state1, none)

/-- Folds a price list through on_price, collecting the non-none signals in
order; the loop in main feeds prices to on_price one per cycle. -/
def runSignals (fast slow : Nat) : EmaState → List ℚ → List String
  | _, [] => []
  | st, p :: ps =>
    let r := on_price st p fast slow
    match r.2 with
    | none => runSignals fast slow r.1 ps
    | some sig => sig :: runSignals fast slow r.1 ps

/-- Closed candle as delivered by marketdata.get_binance_last_closed_candle;
o, h, l, c are the open, high, low, close values (the locals of on_candle,
strategy_trend.py lines 37-40). -/
structure Candle where
  o : ℚ
  h : ℚ
  l : ℚ
  c : ℚ
deriving Repr, DecidableEq

/-- In candle mode the engine takes the close as its working price
(main.py line 179). -/
def candleCyclePrice (candle : Candle) : ℚ := candle.c

/-- The _ema_update helper of src/engine/strategy_trend.py (lines 8-12);
same recurrence as ema_update with the alpha computation placed after the
None test. -/
def ema_update_trend (prev : Option ℚ) (price : ℚ) (length : Nat) : ℚ :=
  match prev with
  | none => price
  | some p =>
    let alpha : ℚ := 2 / ((length : ℚ) + 1)
    p + alpha * (price - p)

/-- TrendPullbackState dataclass from src/engine/strategy_trend.py (lines
15-21); the two deques of capacity 50 become lists trimmed on append. -/
structure TrendPullbackState where
  ema20 : Option ℚ
  ema50 : Option ℚ
  ema200 : Option ℚ
  lows : List ℚ
  highs : List ℚ
deriving Repr, DecidableEq

/-- Fresh TrendPullbackState as constructed at main.py line 129. -/
def trendInit : TrendPullbackState :=
  { ema20 := none, ema50 := none, ema200 := none, lows := [], highs := [] }

/-- Append to a deque of bounded capacity, evicting from the front. -/
def dequeAppend (xs : List ℚ) (x : ℚ) (maxlen : Nat) : List ℚ :=
  let ys := xs ++ [x]
  ys.drop (ys.length - maxlen)

/-- Python negative-index slice xs[-n:], the last n elements. -/
def takeLast (xs : List ℚ) (n : Nat) : List ℚ := xs.drop (xs.length - n)

/-- Python min over a list, with the given fallback for the empty list. -/
def minList (xs : List ℚ) (dflt : ℚ) : ℚ :=
  match xs with
  | [] => dflt
  | y :: ys => ys.foldl min y

/-- Python max over a list, with the given fallback for the empty list. -/
def maxList (xs : List ℚ) (dflt : ℚ) : ℚ :=
  match xs with
  | [] => dflt
  | y :: ys => ys.foldl max y

/-- The nested near test of on_candle (strategy_trend.py lines 60-61). -/
def near (pullback_band_pct x ema : ℚ) : Bool :=
  decide (|x - ema| / ema ≤ pullback_band_pct)

/-- Levels that on_candle reports in its info dict and that the entry logic
of main reads for stop placement. -/
structure TrendInfo where
  ema_fast : ℚ
  ema_slow : ℚ
  ema_trend : ℚ
  swing_low : ℚ
  swing_high : ℚ
  touch_fast : ℚ
  touch_slow : ℚ
deriving Repr, DecidableEq

/-- on_candle from src/engine/strategy_trend.py (lines 24-97). The info
component is none exactly when the source returns the empty info dict. -/
def on_candle (state : TrendPullbackState) (candle : Candle)
    (ema_trend ema_fast ema_slow : Nat) (pullback_band_pct : ℚ)
    (swing_lookback : Nat) :
    TrendPullbackState × Option String × Option TrendInfo :=
  let o := candle.o
  let h := candle.h
  let l := candle.l
  let c := candle.c
  let lows := dequeAppend state.lows l 50
  let highs := dequeAppend state.highs h 50
  let e20 := ema_update_trend state.ema20 c ema_fast
  let e50 := ema_update_trend state.ema50 c ema_slow
  let e200 := ema_update_trend state.ema200 c ema_trend
  let state1 := { state with
                  lows := lows, highs := highs, ema20 := some e20,
                  ema50 := some e50, ema200 := some e200 }
  if state1.ema20.isNone || state1.ema50.isNone || state1.ema200.isNone then
    (state1, none, none)
  else
    let trend_up := decide (c > e200)
    let trend_down := decide (c < e200)
    let touch_fast_up := near pullback_band_pct l e20
    let touch_slow_up := near pullback_band_pct l e50
    let touch_fast_dn := near pullback_band_pct h e20
    let touch_slow_dn := near pullback_band_pct h e50
    let bullish := decide (c > o)
    let bearish := decide (c < o)
    let look := max 1 (min swing_lookback lows.length)
    let recent_lows := takeLast lows look
    let recent_highs := takeLast highs look
    let swing_low := minList recent_lows l
    let swing_high := maxList recent_highs h
    let signal : Option String :=
      if trend_up && (touch_fast_up || touch_slow_up) && bullish then
        some "long"
      else if trend_down && (touch_fast_dn || touch_slow_dn) && bearish then
        some "short"
      else none
    let info : TrendInfo :=
      { ema_fast := e20, ema_slow := e50, ema_trend := e200,
        swing_low := swing_low, swing_high := swing_high,
        touch_fast := if touch_fast_up || touch_fast_dn then 1 else 0,
        touch_slow := if touch_slow_up || touch_slow_dn then 1 else 0 }
    (state1, signal, some info)

/-- Configuration values read by the main loop, with bps values and
percentages already converted to rates as main does on load (main.py lines
96-133, 156, 278-285, 311). -/
structure Config where
  trade_enabled : Bool
  max_trades_per_day : Nat
  max_daily_loss_pct : ℚ
  fee_rate : ℚ
  slip_rate : ℚ
  strategy_name : String
  ema_fast : Nat
  ema_slow : Nat
  stop_loss_pct : ℚ
  rr_takeprofit : ℚ
  risk_pct : ℚ
  max_leverage : ℚ
  max_hold_candles : Nat
  ema_trend : Nat
  ema_pullback_fast : Nat
  ema_pullback_slow : Nat
  pullback_band_pct : ℚ
  swing_lookback : Nat
deriving Repr, DecidableEq

/-- The loop-local variables of main. strat_state is none because main never
binds it before its first read (an unbound Python local); pos is none until
the exit-management block first assigns it. -/
structure LoopLocals where
  hold_candles : Nat
  strat_state : Option EmaState
  trend_state : TrendPullbackState
  last_candle : Option Candle
  pos : Option Position
deriving Repr, DecidableEq

/-- Loop locals as they stand when the first cycle begins (main.py lines
128-137): hold_candles = 0, trend_state fresh, strat_state and pos unbound. -/
def initialLocals : LoopLocals :=
  { hold_candles := 0, strat_state := none, trend_state := trendInit,
    last_candle := none, pos := none }

/-- Day-rollover block body (main.py lines 150-153). -/
def dayRollover (st : EngineState) (today : String) : EngineState :=
  { st with
    day_utc := today, trades_today := 0, day_start_equity := st.equity,
    daily_pnl := 0 }

/-- Guarded rollover: the block runs only when the UTC day changed
(main.py line 144). -/
def rolloverStep (st : EngineState) (today : String) : EngineState :=
  if today = st.day_utc then st else dayRollover st today

/-- The daily-loss kill-switch test of main.py lines 156-159. -/
def killSwitchHit (cfg : Config) (st : EngineState) : Bool :=
  decide (st.daily_pnl ≤ -cfg.max_daily_loss_pct * st.day_start_equity)

/-- Risk sizing from main.py lines 287-307: risk amount, absolute stop
distance, notional formula, leverage cap, and the two skip conditions with
the reasons logged in the entry_skipped events. -/
def sizeNotional (equity risk_pct price stop_price max_leverage : ℚ) :
    Except String ℚ :=
  let risk_amount := equity * risk_pct
  let stop_distance := |price - stop_price|
  if stop_distance ≤ 0 then
    .error "bad_stop_distance"
  else
    let notional_usdt := risk_amount * price / stop_distance
    let max_notional := equity * max_leverage
    let notional_usdt := min notional_usdt max_notional
    if notional_usdt ≤ 0 then
      .error "notional_le_0"
    else
      .ok notional_usdt

/-- Stop determination for a new entry (main.py lines 272-279); for the
trend_pullback strategy the swing levels come from the strategy info dict,
which is empty (here none) while that strategy is warming up. -/
def entryStopPrice (cfg : Config) (price : ℚ) (sig : String)
    (info : Option TrendInfo) : Except String ℚ :=
  if cfg.strategy_name == "trend_pullback" then
    match info with
    | none => .error "KeyError: swing_low"
    | some i => .ok (if sig == "long" then i.swing_low else i.swing_high)
  else
    .ok (if sig == "long" then price * (1 - cfg.stop_loss_pct)
         else price * (1 + cfg.stop_loss_pct))

/-- Entry fill with adverse slippage (main.py lines 321-326). -/
def entryFill (slip_rate price : ℚ) (sig : String) : ℚ :=
  if sig == "long" then price * (1 + slip_rate) else price * (1 - slip_rate)

/-- Immediate entry-fee payment and dailyPnl recomputation (main.py lines
329-331). -/
def payEntryFee (st : EngineState) (fee : ℚ) : EngineState :=
  let equity2 := st.equity - fee
  { st with equity := equity2, daily_pnl := equity2 - st.day_start_equity }

/-- Take-profit level from the configured reward:risk multiple (main.py
lines 311-315). -/
def takeProfitPrice (rr price stop_price : ℚ) (sig : String) : ℚ :=
  if sig == "long" then price + rr * (price - stop_price)
  else price - rr * (stop_price - price)

/-- Result of the entry block: no entry conditions met (falls through),
entry skipped with a continue (the rest of the cycle is not reached), or a
position opened (falls through with the hold counter reset). -/
inductive EntryOutcome where
  | noEntry (st : EngineState) (hold : Nat)
  | skipped (st : EngineState) (hold : Nat) (reason : String)
  | opened (st : EngineState) (hold : Nat)
deriving Repr, DecidableEq

/-- Entry block of main.py lines 269-365. When all gates pass, the entry fee
is paid and then the Position construction is attempted; that call passes
the keyword set of main.py line 334 to the dataclass declared in state.py,
which rejects it, so the interpreter raises TypeError at that point. -/
def entryStep (cfg : Config) (symbol : String) (st : EngineState)
    (price : ℚ) (signal : Option String) (info : Option TrendInfo)
    (opened_at : String) (hold : Nat) : Except String EntryOutcome :=
  match signal with
  | none => .ok (.noEntry st hold)
  | some sig =>
    if st.position.isNone && (sig == "long" || sig == "short") then do
      let stop_price ← entryStopPrice cfg price sig info
      match sizeNotional st.equity cfg.risk_pct price stop_price
          cfg.max_leverage with
      | .error reason => .ok (.skipped st hold ("entry_skipped " ++ reason))
      | .ok notional_usdt =>
        let take_profit_price :=
          takeProfitPrice cfg.rr_takeprofit price stop_price sig
        let entry_fill := entryFill cfg.slip_rate price sig
        let entry_slippage :=
          if sig == "long" then entry_fill - price else price - entry_fill
        let entry_fee := notional_usdt * cfg.fee_rate
        let st1 := payEntryFee st entry_fee
        if dataclassCallOk statePositionFields mainPositionOpenKwargs then
          let pos : Position :=
            { symbol := symbol, side := sig, entry_price := entry_fill,
              notional_usdt := notional_usdt, opened_at := opened_at,
              stop_price := stop_price,
              take_profit_price := take_profit_price,
              entry_fee := entry_fee, entry_slippage := entry_slippage }
          .ok (.opened
            { st1 with
              position := some pos,
              trades_today := st1.trades_today + 1 } 0)
        else
          .error "TypeError: Position() got an unexpected keyword argument notional_usdt"
    else .ok (.noEntry st hold)

/-- Take-profit test of main.py lines 377-380, on the working price. -/
def tpHit (pos : Position) (price : ℚ) : Bool :=
  (pos.side == "long" && decide (price ≥ pos.take_profit_price)) ||
    (pos.side == "short" && decide (price ≤ pos.take_profit_price))

/-- Stop-loss test of main.py lines 381-384, on the working price. -/
def slHit (pos : Position) (price : ℚ) : Bool :=
  (pos.side == "long" && decide (price ≤ pos.stop_price)) ||
    (pos.side == "short" && decide (price ≥ pos.stop_price))

/-- Exit-management block of main.py lines 367-404 exactly as indented in
the source: line 369 rebinds the local pos when a position is open, but the
checks from line 377 on sit at loop-body level, so they run on whatever pos
currently holds even when state.position is None (NameError if pos was
never bound). Returns the engine state, the local pos binding, the hold
counter, and the close reason if a close happened. -/
def exitStep (cfg : Config) (st : EngineState) (posVar : Option Position)
    (price : ℚ) (hold : Nat) :
    Except String (EngineState × Option Position × Nat × Option String) :=
  let posVar := if st.position.isSome then st.position else posVar
  match posVar with
  | none => .error "NameError: name pos is not defined"
  | some pos =>
    if slHit pos price then
      let r := close_position st pos pos.stop_price "stop_loss"
        cfg.fee_rate cfg.slip_rate
      .ok (r.1, some pos, 0, some "stop_loss")
    else if tpHit pos price then
      let r := close_position st pos pos.take_profit_price "take_profit"
        cfg.fee_rate cfg.slip_rate
      .ok (r.1, some pos, 0, some "take_profit")
    else
      let hold1 := hold + 1
      if cfg.max_hold_candles ≤ hold1 then
        let r := close_position st pos price "time_exit"
          cfg.fee_rate cfg.slip_rate
        .ok (r.1, some pos, 0, some "time_exit")
      else
        .ok (st, some pos, hold1, none)

/-- Strategy-update dispatch of main.py lines 230-266. The trend branch
reads last_candle; the ema_cross branch reads the local strat_state, which
main never initializes, so its first evaluation raises UnboundLocalError. -/
def strategyStep (cfg : Config) (loc : LoopLocals) (price : ℚ) :
    Except String (LoopLocals × Option String × Option TrendInfo) :=
  if cfg.strategy_name == "trend_pullback" then
    match loc.last_candle with
    | none => .error "TypeError: NoneType object is not subscriptable"
    | some candle =>
      let r := on_candle loc.trend_state candle cfg.ema_trend
        cfg.ema_pullback_fast cfg.ema_pullback_slow cfg.pullback_band_pct
        cfg.swing_lookback
      .ok ({ loc with trend_state := r.1 }, r.2.1, r.2.2)
  else
    match loc.strat_state with
    | none =>
      .error "UnboundLocalError: local variable strat_state referenced before assignment"
    | some es =>
      let r := on_price es price cfg.ema_fast cfg.ema_slow
      .ok ({ loc with strat_state := some r.1 }, r.2, none)

/-- One iteration of the main while loop (main.py lines 139-407) in spot
mode: rollover check, daily-loss kill-switch, market data (none models a
fetch error), trade-enabled gate, trade-count gate, strategy update, entry
block, exit management. The final string tags which continue path or
completion the cycle took, mirroring the emitted log events. -/
def cycleStep (cfg : Config) (symbol today opened_at : String)
    (priceFetch : Option ℚ) (st : EngineState) (loc : LoopLocals) :
    Except String (EngineState × LoopLocals × String) :=
  let st := rolloverStep st today
  if killSwitchHit cfg st then
    .ok (st, loc, "daily_loss_limit_hit")
  else
    match priceFetch with
    | none => .ok (st, loc, "marketdata_error")
    | some price =>
      if !cfg.trade_enabled then
        .ok (st, loc, "trade_disabled")
      else if cfg.max_trades_per_day ≤ st.trades_today
          && st.position.isNone then
        .ok (st, loc, "max_trades_gate")
      else do
        let sres ← strategyStep cfg loc price
        let loc := sres.1
        let eres ← entryStep cfg symbol st price sres.2.1 sres.2.2
          opened_at loc.hold_candles
        match eres with
        | .skipped st2 hold reason =>
          .ok (st2, { loc with hold_candles := hold }, reason)
        | .noEntry st2 hold =>
          let xres ← exitStep cfg st2 loc.pos price hold
          .ok (xres.1,
            { loc with pos := xres.2.1, hold_candles := xres.2.2.1 },
            "cycle_done")
        | .opened st2 hold =>
          let xres ← exitStep cfg st2 loc.pos price hold
          .ok (xres.1,
            { loc with pos := xres.2.1, hold_candles := xres.2.2.1 },
            "cycle_done")

/-- The round trip of claim C5: pay the entry fee and enter long at the
slipped fill (main.py lines 319-344 with the fields main intends), then
immediately close through close_position at the unchanged signal price. -/
def roundTripLong (st : EngineState) (symbol opened_at : String)
    (price notional stop_price tp_price fee_rate slip_rate : ℚ) :
    EngineState :=
  let entry_fill := entryFill slip_rate price "long"
  let entry_fee := notional * fee_rate
  let st1 := payEntryFee st entry_fee
  let pos : Position :=
    { symbol := symbol, side := "long", entry_price := entry_fill,
      notional_usdt := notional, opened_at := opened_at,
      stop_price := stop_price, take_profit_price := tp_price,
      entry_fee := entry_fee, entry_slippage := entry_fill - price }
  let st2 := { st1 with position := some pos }
  (close_position st2 pos price "time_exit" fee_rate slip_rate).1

/-- Default fee rate: fee_bps = 8 over 10000 (main.py line 124). -/
def feeRateDefault : ℚ := 8 / 10000

/-- Default slippage rate: slippage_bps = 2 over 10000 (main.py line 125). -/
def slipRateDefault : ℚ := 2 / 10000

/-- The dailyPnl bookkeeping invariant of the spec data model. -/
def pnlInv (st : EngineState) : Prop :=
  st.daily_pnl = st.equity - st.day_start_equity

/-- A concrete configuration with the default settings of main.py:
ema_cross strategy, 1 percent stop, 1 percent risk, leverage cap 3,
fee 8 bps, slippage 2 bps, reward:risk 2, 12 hold candles. -/
def cfgEx : Config :=
  { trade_enabled := true, max_trades_per_day := 10,
    max_daily_loss_pct := 5 / 100, fee_rate := feeRateDefault,
    slip_rate := slipRateDefault, strategy_name := "ema_cross",
    ema_fast := 12, ema_slow := 26, stop_loss_pct := 1 / 100,
    rr_takeprofit := 2, risk_pct := 1 / 100, max_leverage := 3,
    max_hold_candles := 12, ema_trend := 200, ema_pullback_fast := 20,
    ema_pullback_slow := 50, pullback_band_pct := 15 / 10000,
    swing_lookback := 5 }

/-- A fresh engine state with equity 1000 on a fixed UTC day. -/
def stEx : EngineState := new_state 1000 "2024-01-01"

/-- A long position as the exit logic reads it: entered at 100, stop 99,
take profit 102. -/
def posEx : Position :=
  { symbol := "BTCUSDT", side := "long", entry_price := 100,
    notional_usdt := 1000, opened_at := "t0", stop_price := 99,
    take_profit_price := 102, entry_fee := 4 / 5,
    entry_slippage := 1 / 50 }

/-- A degenerate long position whose take-profit level 90 lies below its
stop 100, so one price can trigger both exit conditions at once. -/
def posBoth : Position :=
  { symbol := "BTCUSDT", side := "long", entry_price := 100,
    notional_usdt := 1000, opened_at := "t0", stop_price := 100,
    take_profit_price := 90, entry_fee := 4 / 5,
    entry_slippage := 1 / 50 }

/-- The candle of claim C3: its range 98 to 103 covers both the stop 99 and
the take profit 102 of posEx while its close 100 sits strictly between. -/
def candleBoth : Candle := { o := 100, h := 103, l := 98, c := 100 }

/-- cfgEx with a zero stop-loss percentage, which makes the stop distance
zero and trips the bad_stop_distance skip. -/
def cfgZeroStop : Config := { cfgEx with stop_loss_pct := 0 }

/-- Engine state holding posEx as the open position. -/
def stWithPos : EngineState := { stEx with position := some posEx }

/-- Engine state holding the degenerate posBoth as the open position. -/
def stBoth : EngineState := { stEx with position := some posBoth }

/-- Engine state on 2024-01-01 whose daily loss of 60 breaches the 5
percent kill-switch limit of 50 on a day-start equity of 1000. -/
def stKill : EngineState :=
  { stEx with equity := 940, daily_pnl := -60 }

/-- The engine state produced when the exit block re-closes the stale posEx
at its stop while state.position is already None: close_position applies
the stop-loss pnl of -5499/500 to the flat stEx. -/
def stAfterStale : EngineState :=
  { stEx with equity := 494501 / 500, daily_pnl := -5499 / 500 }

/-- C8: for every period at least 1, both EMA updates return the
observation price exactly on the first observation and follow
prev + alpha * (price - prev) with alpha = 2 / (period + 1) afterwards, and
ema_update of strategy_ema and the trend helper compute the same function. -/
theorem C8_ema_update_agree (period : Nat) (hp : 1 ≤ period) :
    (∀ price : ℚ, ema_update none price period = price ∧
      ema_update_trend none price period = price) ∧
    (∀ prev price : ℚ, ema_update (some prev) price period =
      prev + 2 / ((period : ℚ) + 1) * (price - prev)) ∧
    (∀ (prev : Option ℚ) (price : ℚ),
      ema_update prev price period = ema_update_trend prev price period) := by
  refine ⟨fun price => ⟨rfl, rfl⟩, fun prev price => rfl, fun prev price => ?_⟩
  cases prev <;> rfl

/-- C8 witness: instantiated at period 12 with the warm-up seed and one
smoothed update. -/
theorem C8_ema_update_agree_witness :
    (1 : Nat) ≤ 12 ∧
    ema_update (some 100) 113 12 = 100 + 2 / ((12 : ℚ) + 1) * (113 - 100) ∧
    ema_update none 7 12 = (7 : ℚ) ∧
    ema_update (some 100) 113 12 = ema_update_trend (some 100) 113 12 :=
  ⟨by decide,
   (C8_ema_update_agree 12 (by decide)).2.1 100 113,
   ((C8_ema_update_agree 12 (by decide)).1 7).1,
   (C8_ema_update_agree 12 (by decide)).2.2 (some 100) 113⟩

/-- C9: daily_pnl = equity - day_start_equity holds for the initial state
and is re-established by day rollover, by the entry-fee deduction at open,
and by the profit-and-loss application of close_position. -/
theorem C9_daily_pnl_invariant :
    (∀ (e : ℚ) (d : String), pnlInv (new_state e d)) ∧
    (∀ (st : EngineState) (today : String), pnlInv (dayRollover st today)) ∧
    (∀ (st : EngineState) (fee : ℚ), pnlInv (payEntryFee st fee)) ∧
    (∀ (st : EngineState) (pos : Position) (px : ℚ) (reason : String)
      (fr sr : ℚ), pnlInv (close_position st pos px reason fr sr).1) := by
  refine ⟨fun e d => ?_, fun st today => ?_, fun st fee => ?_,
    fun st pos px reason fr sr => ?_⟩ <;>
    simp [pnlInv, new_state, dayRollover, payEntryFee, close_position]

/-- C1: the Open transition never completes as described. The keyword set
main.py passes to the Position constructor is rejected by the dataclass
declared in state.py, so a cycle in which the portfolio is flat, the
strategy emits long, the risk gates pass and sizing succeeds raises a
TypeError at the construction step instead of producing the listed
effects. -/
theorem C1_open_transition_raises :
    dataclassCallOk statePositionFields mainPositionOpenKwargs = false ∧
    stEx.position = none ∧
    sizeNotional stEx.equity cfgEx.risk_pct 100 99 cfgEx.max_leverage =
      .ok 1000 ∧
    entryStep cfgEx "BTCUSDT" stEx 100 (some "long") none "t0" 0 =
      .error "TypeError: Position() got an unexpected keyword argument notional_usdt" := by
  have hd : dataclassCallOk statePositionFields mainPositionOpenKwargs
      = false := by decide
  refine ⟨hd, rfl, ?_, ?_⟩
  · norm_num [sizeNotional, stEx, cfgEx, new_state]
  · simp [entryStep, entryStopPrice, sizeNotional, stEx, cfgEx, new_state,
      payEntryFee, entryFill, takeProfitPrice, feeRateDefault,
      slipRateDefault, bind, Except.bind, hd] <;> norm_num

/-- C6: the strategy-update step is not well-defined for the default
ema_cross strategy: strat_state is never initialized before the first
on_price call, so the first cycle that reaches the strategy update raises
UnboundLocalError rather than operating on an initialized EmaState. -/
theorem C6_strat_state_unbound :
    initialLocals.strat_state = none ∧
    cycleStep cfgEx "BTCUSDT" "2024-01-01" "t0" (some 100) stEx
      initialLocals =
    .error "UnboundLocalError: local variable strat_state referenced before assignment" := by
  refine ⟨rfl, ?_⟩
  simp [cycleStep, rolloverStep, killSwitchHit, strategyStep, stEx, cfgEx,
    new_state, initialLocals, bind, Except.bind] <;> norm_num

/-- C4: the risk sizer computes notional = equity * riskPct * price /
stopDistance with stopDistance = abs (price - stopPrice), caps it at
equity * maxLeverage, skips the entry (state and hold counter untouched, no
position) when the stop distance is nonpositive or the capped notional is
nonpositive, and yields exactly 1000 on the documented example. -/
theorem C4_risk_sizer :
    (∀ equity risk_pct price stop_price max_leverage : ℚ,
      |price - stop_price| ≤ 0 →
      sizeNotional equity risk_pct price stop_price max_leverage =
        .error "bad_stop_distance") ∧
    (∀ equity risk_pct price stop_price max_leverage : ℚ,
      0 < |price - stop_price| →
      min (equity * risk_pct * price / |price - stop_price|)
          (equity * max_leverage) ≤ 0 →
      sizeNotional equity risk_pct price stop_price max_leverage =
        .error "notional_le_0") ∧
    (∀ equity risk_pct price stop_price max_leverage : ℚ,
      0 < |price - stop_price| →
      0 < min (equity * risk_pct * price / |price - stop_price|)
            (equity * max_leverage) →
      sizeNotional equity risk_pct price stop_price max_leverage =
        .ok (min (equity * risk_pct * price / |price - stop_price|)
              (equity * max_leverage))) ∧
    (∀ (cfg : Config) (symbol : String) (st : EngineState) (price : ℚ)
      (info : Option TrendInfo) (opened_at : String) (hold : Nat)
      (sig : String) (stop_price : ℚ) (reason : String),
      st.position = none →
      (sig = "long" ∨ sig = "short") →
      entryStopPrice cfg price sig info = .ok stop_price →
      sizeNotional st.equity cfg.risk_pct price stop_price cfg.max_leverage =
        .error reason →
      entryStep cfg symbol st price (some sig) info opened_at hold =
        .ok (.skipped st hold ("entry_skipped " ++ reason))) ∧
    sizeNotional 1000 (1 / 100) 100 99 3 = .ok 1000 := by
  refine ⟨?_, ?_, ?_, ?_, ?_⟩
  · intro equity risk_pct price stop_price max_leverage h
    simp only [sizeNotional]
    rw [if_pos h]
  · intro equity risk_pct price stop_price max_leverage h1 h2
    simp only [sizeNotional]
    rw [if_neg (not_le.mpr h1), if_pos h2]
  · intro equity risk_pct price stop_price max_leverage h1 h2
    simp only [sizeNotional]
    rw [if_neg (not_le.mpr h1), if_neg (not_le.mpr h2)]
  · intro cfg symbol st price info opened_at hold sig stop_price reason
      hflat hsig hstop hsize
    rcases hsig with h | h <;> subst h <;>
      simp [entryStep, hflat, hstop, hsize, bind, Except.bind]
  · norm_num [sizeNotional, min_def]

/-- C4 witness: both skip conditions, the successful formula, the skip of a
concrete entry attempt with an unchanged state, and the documented example. -/
theorem C4_risk_sizer_witness :
    sizeNotional 1000 (1 / 100) 100 100 3 = .error "bad_stop_distance" ∧
    sizeNotional 0 (1 / 100) 100 99 3 = .error "notional_le_0" ∧
    sizeNotional 1000 (1 / 100) 100 99 3 =
      .ok (min (1000 * (1 / 100) * 100 / |100 - 99|) (1000 * 3)) ∧
    entryStep cfgZeroStop "BTCUSDT" stEx 100 (some "long") none "t0" 0 =
      .ok (.skipped stEx 0 ("entry_skipped " ++ "bad_stop_distance")) :=
  ⟨C4_risk_sizer.1 1000 (1 / 100) 100 100 3 (by norm_num),
   C4_risk_sizer.2.1 0 (1 / 100) 100 99 3 (by norm_num) (by norm_num),
   C4_risk_sizer.2.2.1 1000 (1 / 100) 100 99 3 (by norm_num)
     (by norm_num [min_def]),
   C4_risk_sizer.2.2.2.1 cfgZeroStop "BTCUSDT" stEx 100 none "t0" 0 "long"
     100 "bad_stop_distance" rfl (Or.inl rfl)
     (by simp [entryStopPrice, cfgZeroStop, cfgEx] <;> norm_num)
     (by norm_num [sizeNotional, stEx, cfgZeroStop, cfgEx, new_state])⟩

/-- C2: exit evaluation is not restricted to cycles with an open position.
With state.position = None and the loop-local pos still holding the
previously closed long, the exit block still evaluates the stop check
against the stale position and calls close_position again, changing equity
and dailyPnl, contradicting the claim that the step leaves everything
unchanged when no position is open. -/
theorem C2_exit_step_stale_pos :
    stEx.position = none ∧
    exitStep cfgEx stEx (some posEx) 98 3 =
      .ok (stAfterStale, some posEx, 0, some "stop_loss") ∧
    ¬ stAfterStale.equity = stEx.equity := by
  refine ⟨rfl, ?_, by norm_num [stAfterStale, stEx, new_state]⟩
  simp [exitStep, slHit, tpHit, close_position, posEx, stEx, stAfterStale,
    cfgEx, new_state, feeRateDefault, slipRateDefault] <;> norm_num

/-- C3 counterexample: exit checks read only the cycle price, which in
candle mode is the close. A candle whose range covers both the stop and the
take profit of the open long but whose close lies strictly between them
triggers neither check: the cycle closes nothing and the state is
unchanged, so the claim that such a candle closes the position with reason
stop_loss is false. -/
theorem C3_candle_range_ignored :
    candleBoth.l ≤ posEx.stop_price ∧
    posEx.take_profit_price ≤ candleBoth.h ∧
    stWithPos.position = some posEx ∧
    exitStep cfgEx stWithPos (some posEx) (candleCyclePrice candleBoth) 3 =
      .ok (stWithPos, some posEx, 4, none) := by
  refine ⟨by norm_num [candleBoth, posEx], by norm_num [candleBoth, posEx],
    rfl, ?_⟩
  simp [exitStep, slHit, tpHit, candleCyclePrice, candleBoth, posEx,
    stWithPos, stEx, new_state, cfgEx] <;> norm_num

/-- C3 amended: the exit checks are applied to the observation price (the
close, in candle mode) in the priority order stop-loss, then take-profit,
then time-exit; whenever that price triggers both the stop-loss and the
take-profit condition, the position is closed with reason stop_loss, never
take_profit. -/
theorem C3_exit_priority (cfg : Config) (st : EngineState) (pos : Position)
    (posVar : Option Position) (price : ℚ) (hold : Nat)
    (hpos : st.position = some pos) :
    (slHit pos price = true →
      exitStep cfg st posVar price hold =
        .ok ((close_position st pos pos.stop_price "stop_loss"
            cfg.fee_rate cfg.slip_rate).1, some pos, 0, some "stop_loss")) ∧
    (slHit pos price = false → tpHit pos price = true →
      exitStep cfg st posVar price hold =
        .ok ((close_position st pos pos.take_profit_price "take_profit"
            cfg.fee_rate cfg.slip_rate).1, some pos, 0,
          some "take_profit")) ∧
    (slHit pos price = false → tpHit pos price = false →
      cfg.max_hold_candles ≤ hold + 1 →
      exitStep cfg st posVar price hold =
        .ok ((close_position st pos price "time_exit"
            cfg.fee_rate cfg.slip_rate).1, some pos, 0, some "time_exit")) ∧
    (slHit pos price = false → tpHit pos price = false →
      hold + 1 < cfg.max_hold_candles →
      exitStep cfg st posVar price hold =
        .ok (st, some pos, hold + 1, none)) := by
  refine ⟨fun h1 => ?_, fun h1 h2 => ?_, fun h1 h2 h3 => ?_,
    fun h1 h2 h3 => ?_⟩ <;>
    simp [exitStep, hpos, h1]
  · simp [h2]
  · simp [h2, h3]
  · simp [h2, Nat.not_le.mpr h3]

/-- C3 witness: a price that triggers both the stop and the take-profit
condition of the degenerate long closes with reason stop_loss. -/
theorem C3_exit_priority_witness :
    slHit posBoth 95 = true ∧ tpHit posBoth 95 = true ∧
    exitStep cfgEx stBoth (some posBoth) 95 3 =
      .ok ((close_position stBoth posBoth posBoth.stop_price "stop_loss"
          cfgEx.fee_rate cfgEx.slip_rate).1, some posBoth, 0,
        some "stop_loss") :=
  ⟨by simp [slHit, posBoth] <;> norm_num,
   by simp [tpHit, posBoth] <;> norm_num,
   (C3_exit_priority cfgEx stBoth posBoth (some posBoth) 95 3 rfl).1
     (by simp [slHit, posBoth] <;> norm_num)⟩

/-- C10: if the daily-loss condition holds when the kill-switch is checked
(no rollover intervening), the whole cycle performs nothing: no market
data, no strategy update, no entry, no exit, state and locals returned
unchanged; and a day rollover with a positive loss limit and positive
equity clears the condition. -/
theorem C10_kill_switch (cfg : Config) (symbol today opened_at : String)
    (priceFetch : Option ℚ) (st : EngineState) (loc : LoopLocals) :
    (today = st.day_utc → killSwitchHit cfg st = true →
      cycleStep cfg symbol today opened_at priceFetch st loc =
        .ok (st, loc, "daily_loss_limit_hit")) ∧
    (today ≠ st.day_utc → 0 < cfg.max_daily_loss_pct → 0 < st.equity →
      killSwitchHit cfg (rolloverStep st today) = false) := by
  constructor
  · intro h1 h2
    simp [cycleStep, rolloverStep, h1, h2]
  · intro h1 h2 h3
    simp [rolloverStep, h1, dayRollover, killSwitchHit,
      decide_eq_false_iff_not, not_le]
    nlinarith [mul_pos h2 h3]

/-- C10 witness: a breached limit freezes the concrete cycle, and the next
day rollover clears the condition. -/
theorem C10_kill_switch_witness :
    killSwitchHit cfgEx stKill = true ∧
    cycleStep cfgEx "BTCUSDT" "2024-01-01" "t0" (some 100) stKill
      initialLocals = .ok (stKill, initialLocals, "daily_loss_limit_hit") ∧
    killSwitchHit cfgEx (rolloverStep stKill "2024-01-02") = false :=
  ⟨by simp [killSwitchHit, stKill, stEx, new_state, cfgEx] <;> norm_num,
   (C10_kill_switch cfgEx "BTCUSDT" "2024-01-01" "t0" (some 100) stKill
       initialLocals).1 rfl
     (by simp [killSwitchHit, stKill, stEx, new_state, cfgEx] <;> norm_num),
   (C10_kill_switch cfgEx "BTCUSDT" "2024-01-02" "t0" (some 100) stKill
       initialLocals).2 (by decide) (by norm_num [cfgEx])
     (by norm_num [stKill, stEx, new_state])⟩

/-- C5 counterexample: at notional 10000 and price 100 the round trip at an
unchanged price does not lose exactly entryFee + exitFee + 2 * notional *
slipRate; the slippage leg is computed on the quantity bought at the
slipped entry fill, so the exact loss differs from the claimed formula. -/
theorem C5_not_claimed_formula :
    (roundTripLong stEx "BTCUSDT" "t0" 100 10000 99 102 feeRateDefault
        slipRateDefault).equity - stEx.equity ≠
      -(10000 * feeRateDefault + 10000 * feeRateDefault) -
        2 * 10000 * slipRateDefault := by
  simp [roundTripLong, close_position, payEntryFee, entryFill, stEx,
    new_state, feeRateDefault, slipRateDefault] <;> norm_num

/-- C5 amended: for every positive notional and positive price, the round
trip of opening a long and immediately closing it at the unchanged signal
price with feeRate 0.0008 and slipRate 0.0002 changes equity by exactly
minus (entryFee + exitFee) minus 2 * notional * slipRate / (1 + slipRate),
a strictly negative amount. -/
theorem C5_round_trip_exact (st : EngineState) (symbol opened_at : String)
    (price notional stop_price tp_price : ℚ)
    (hn : 0 < notional) (hp : 0 < price) :
    (roundTripLong st symbol opened_at price notional stop_price tp_price
        feeRateDefault slipRateDefault).equity - st.equity =
      -(notional * feeRateDefault + notional * feeRateDefault) -
        2 * notional * slipRateDefault / (1 + slipRateDefault) ∧
    (roundTripLong st symbol opened_at price notional stop_price tp_price
        feeRateDefault slipRateDefault).equity - st.equity < 0 := by
  have hp0 : price ≠ 0 := ne_of_gt hp
  have key : (roundTripLong st symbol opened_at price notional stop_price
      tp_price feeRateDefault slipRateDefault).equity - st.equity =
      -(notional * feeRateDefault + notional * feeRateDefault) -
        2 * notional * slipRateDefault / (1 + slipRateDefault) := by
    simp [roundTripLong, close_position, payEntryFee, entryFill,
      feeRateDefault, slipRateDefault]
    field_simp
    ring
  refine ⟨key, ?_⟩
  rw [key]
  norm_num [feeRateDefault, slipRateDefault]
  nlinarith [hn]

/-- C5 witness: the exact loss at notional 10000 and price 100. -/
theorem C5_round_trip_exact_witness :
    (0 : ℚ) < 10000 ∧ (0 : ℚ) < 100 ∧
    (roundTripLong stEx "BTCUSDT" "t0" 100 10000 99 102 feeRateDefault
        slipRateDefault).equity - stEx.equity =
      -(10000 * feeRateDefault + 10000 * feeRateDefault) -
        2 * 10000 * slipRateDefault / (1 + slipRateDefault) ∧
    (roundTripLong stEx "BTCUSDT" "t0" 100 10000 99 102 feeRateDefault
        slipRateDefault).equity - stEx.equity < 0 :=
  ⟨by norm_num, by norm_num,
   (C5_round_trip_exact stEx "BTCUSDT" "t0" 100 10000 99 102 (by norm_num)
     (by norm_num)).1,
   (C5_round_trip_exact stEx "BTCUSDT" "t0" 100 10000 99 102 (by norm_num)
     (by norm_num)).2⟩

/-- Case analysis of one on_price call: either no signal is emitted and
last_signal is untouched, or a long or short fires, in which case the
corresponding EMA ordering held, last_signal differed from the emitted
signal before the call, and equals it afterwards. -/
theorem on_price_cases (st : EmaState) (p : ℚ) (fast slow : Nat) :
    ((on_price st p fast slow).2 = none ∧
      (on_price st p fast slow).1.last_signal = st.last_signal) ∨
    ((on_price st p fast slow).2 = some "long" ∧
      (on_price st p fast slow).1.last_signal = some "long" ∧
      ema_update st.ema_fast p fast > ema_update st.ema_slow p slow ∧
      st.last_signal ≠ some "long") ∨
    ((on_price st p fast slow).2 = some "short" ∧
      (on_price st p fast slow).1.last_signal = some "short" ∧
      ema_update st.ema_fast p fast < ema_update st.ema_slow p slow ∧
      st.last_signal ≠ some "short") := by
  by_cases h1 : ema_update st.ema_fast p fast > ema_update st.ema_slow p slow
      ∧ st.last_signal ≠ some "long"
  · exact Or.inr (Or.inl ⟨by simp [on_price, h1], by simp [on_price, h1],
      h1.1, h1.2⟩)
  · by_cases h2 : ema_update st.ema_fast p fast <
        ema_update st.ema_slow p slow ∧ st.last_signal ≠ some "short"
    · exact Or.inr (Or.inr ⟨by simp [on_price, h1, h2],
        by simp [on_price, h1, h2], h2.1, h2.2⟩)
    · exact Or.inl ⟨by simp [on_price, h1, h2], by simp [on_price, h1, h2]⟩

/-- Unfolding equation for runSignals when the head price emits nothing. -/
theorem runSignals_cons_none (fast slow : Nat) (st : EmaState) (p : ℚ)
    (ps : List ℚ) (h : (on_price st p fast slow).2 = none) :
    runSignals fast slow st (p :: ps) =
      runSignals fast slow (on_price st p fast slow).1 ps := by
  simp [runSignals, h]

/-- Unfolding equation for runSignals when the head price emits a signal. -/
theorem runSignals_cons_some (fast slow : Nat) (st : EmaState) (p : ℚ)
    (ps : List ℚ) (sig : String)
    (h : (on_price st p fast slow).2 = some sig) :
    runSignals fast slow st (p :: ps) =
      sig :: runSignals fast slow (on_price st p fast slow).1 ps := by
  simp [runSignals, h]

/-- Structural invariant of the signal stream: adjacent emitted signals
differ, the first emitted signal differs from the incoming last_signal,
and every emitted signal is long or short. -/
theorem runSignals_spec (fast slow : Nat) :
    ∀ (ps : List ℚ) (st : EmaState),
      List.Chain' (fun a b => a ≠ b) (runSignals fast slow st ps) ∧
      (∀ x, (runSignals fast slow st ps).head? = some x →
        st.last_signal ≠ some x) ∧
      (∀ x ∈ runSignals fast slow st ps, x = "long" ∨ x = "short") := by
  intro ps
  induction ps with
  | nil => intro st; simp [runSignals]
  | cons p ps ih =>
    intro st
    have IH := ih (on_price st p fast slow).1
    rcases on_price_cases st p fast slow with
      ⟨hsig, hlast⟩ | ⟨hsig, hnew, _, hold⟩ | ⟨hsig, hnew, _, hold⟩
    · rw [runSignals_cons_none fast slow st p ps hsig]
      refine ⟨IH.1, ?_, IH.2.2⟩
      intro x hx
      exact hlast ▸ IH.2.1 x hx
    · rw [runSignals_cons_some fast slow st p ps "long" hsig]
      refine ⟨?_, ?_, ?_⟩
      · rw [List.chain'_cons']
        refine ⟨?_, IH.1⟩
        intro b hb
        have hb2 := IH.2.1 b hb
        rw [hnew] at hb2
        intro hsb
        exact hb2 (by rw [hsb])
      · intro x hx
        simp only [List.head?_cons, Option.some.injEq] at hx
        rw [← hx]
        exact hold
      · intro x hx
        rcases List.mem_cons.mp hx with h | h
        · exact Or.inl h
        · exact IH.2.2 x h
    · rw [runSignals_cons_some fast slow st p ps "short" hsig]
      refine ⟨?_, ?_, ?_⟩
      · rw [List.chain'_cons']
        refine ⟨?_, IH.1⟩
        intro b hb
        have hb2 := IH.2.1 b hb
        rw [hnew] at hb2
        intro hsb
        exact hb2 (by rw [hsb])
      · intro x hx
        simp only [List.head?_cons, Option.some.injEq] at hx
        rw [← hx]
        exact hold
      · intro x hx
        rcases List.mem_cons.mp hx with h | h
        · exact Or.inr h
        · exact IH.2.2 x h

/-- C7: over any finite price sequence the EMA-crossover strategy never
emits the same directional signal twice in a row: adjacent non-none
signals differ and each is long or short, so the stream strictly
alternates; moreover a long fires only when the fast EMA is above the slow
EMA and last_signal is not already long, and symmetrically for short. -/
theorem C7_signal_hysteresis (fast slow : Nat) (st : EmaState)
    (ps : List ℚ) :
    List.Chain' (fun a b => a ≠ b) (runSignals fast slow st ps) ∧
    (∀ x ∈ runSignals fast slow st ps, x = "long" ∨ x = "short") ∧
    (∀ (st2 : EmaState) (p : ℚ),
      (on_price st2 p fast slow).2 = some "long" →
      ema_update st2.ema_fast p fast > ema_update st2.ema_slow p slow ∧
      st2.last_signal ≠ some "long") ∧
    (∀ (st2 : EmaState) (p : ℚ),
      (on_price st2 p fast slow).2 = some "short" →
      ema_update st2.ema_fast p fast < ema_update st2.ema_slow p slow ∧
      st2.last_signal ≠ some "short") := by
  refine ⟨(runSignals_spec fast slow ps st).1,
    (runSignals_spec fast slow ps st).2.2, ?_, ?_⟩
  · intro st2 p h
    rcases on_price_cases st2 p fast slow with
      ⟨hsig, _⟩ | ⟨hsig, _, hgt, hold⟩ | ⟨hsig, _, _, _⟩
    · rw [h] at hsig; exact absurd hsig (by simp)
    · exact ⟨hgt, hold⟩
    · rw [h] at hsig; exact absurd hsig (by simp)
  · intro st2 p h
    rcases on_price_cases st2 p fast slow with
      ⟨hsig, _⟩ | ⟨hsig, _, _, _⟩ | ⟨hsig, _, hlt, hold⟩
    · rw [h] at hsig; exact absurd hsig (by simp)
    · rw [h] at hsig; exact absurd hsig (by simp)
    · exact ⟨hlt, hold⟩

/-- C7 witness: a concrete two-price run emitting one long, and the guard
conditions extracted from that concrete emission. -/
theorem C7_signal_hysteresis_witness :
    List.Chain' (fun a b => a ≠ b)
      (runSignals 12 26 (EmaState.mk none none none) [100, 113]) ∧
    (ema_update (EmaState.mk (some 100) (some 100) none).ema_fast 113 12 >
      ema_update (EmaState.mk (some 100) (some 100) none).ema_slow 113 26 ∧
      (EmaState.mk (some 100) (some 100) none).last_signal ≠
        some "long") :=
  ⟨(C7_signal_hysteresis 12 26 (EmaState.mk none none none) [100, 113]).1,
   (C7_signal_hysteresis 12 26 (EmaState.mk none none none) []).2.2.1
     (EmaState.mk (some 100) (some 100) none) 113
     (by simp [on_price, ema_update] <;> norm_num)⟩
